import Mathlib

/-!
Verification of the `rust-net-stab` availability monitor (`src/main.rs`)
against its natural-language specification.

The development shallowly embeds the program: the per-endpoint prober loop
(`ping_endpoint`), the probe function (`ping`), the host sampler
(`update_system_metrics`), the metric registration performed in `main`, and
the read-side metrics handler (`serve_metrics`).  Latencies and gauge values
are modelled as rationals, counters as naturals, and a histogram as the list
of its recorded observations.
-/

namespace RustNetStab

/-- An endpoint from the configuration file (`struct Endpoint` in main.rs). -/
structure Endpoint where
  name : String
  address : String
  location : Option String
deriving Repr, DecidableEq

/-- Outcome of one probe cycle as seen by `ping_endpoint`: the `match output`
on the result of `ping`, together with the elapsed duration measured around
the call (only used in the success arm). -/
inductive ProbeOutcome where
  | success (latency : ℚ)
  | failure
deriving Repr, DecidableEq

/-- The three metric series `ping_endpoint` writes for one `(name, address)`
label set: the `ping_success` counter, the `ping_fail` counter, and the
`ping_latency` histogram (modelled as the list of observed samples, so the
histogram's observation count is the list length). -/
structure SeriesMetrics where
  ping_success : Nat
  ping_fail : Nat
  latency_observations : List ℚ
deriving Repr, DecidableEq

/-- A freshly created label-set series: counters 0, empty histogram. -/
def initSeries : SeriesMetrics := ⟨0, 0, []⟩

/-- The body of the `match output` in `ping_endpoint` (main.rs lines 57-65):
on `Ok(_)` increment the success counter and observe the duration; on
`Err(_)` increment the failure counter only. -/
def processOutcome (s : SeriesMetrics) (o : ProbeOutcome) : SeriesMetrics :=
  match o with
  | .success d =>
      { s with ping_success := s.ping_success + 1,
               latency_observations := s.latency_observations ++ [d] }
  | .failure =>
      { s with ping_fail := s.ping_fail + 1 }

/-- Iterating the prober loop over a finite sequence of probe outcomes. -/
def processOutcomes (s : SeriesMetrics) (os : List ProbeOutcome) : SeriesMetrics :=
  os.foldl processOutcome s

/-- Number of successful outcomes in a probe sequence. -/
def countSuccesses (os : List ProbeOutcome) : Nat :=
  os.countP fun o => match o with | .success _ => true | .failure => false

/-- Number of failed outcomes in a probe sequence. -/
def countFailures (os : List ProbeOutcome) : Nat :=
  os.countP fun o => match o with | .success _ => false | .failure => true

lemma processOutcomes_cons (s : SeriesMetrics) (o : ProbeOutcome)
    (os : List ProbeOutcome) :
    processOutcomes s (o :: os) = processOutcomes (processOutcome s o) os := rfl

lemma processOutcomes_spec (s : SeriesMetrics) (os : List ProbeOutcome) :
    (processOutcomes s os).ping_success = s.ping_success + countSuccesses os ∧
    (processOutcomes s os).ping_fail = s.ping_fail + countFailures os ∧
    (processOutcomes s os).latency_observations.length
      = s.latency_observations.length + countSuccesses os := by
  induction os generalizing s with
  | nil => simp [processOutcomes, countSuccesses, countFailures]
  | cons o os ih =>
      cases o with
      | success d =>
          obtain ⟨h1, h2, h3⟩ := ih (processOutcome s (.success d))
          simp [processOutcomes_cons, processOutcome, countSuccesses,
            countFailures, List.countP_cons] at h1 h2 h3 ⊢
          refine ⟨by omega, by omega, by omega⟩
      | failure =>
          obtain ⟨h1, h2, h3⟩ := ih (processOutcome s .failure)
          simp [processOutcomes_cons, processOutcome, countSuccesses,
            countFailures, List.countP_cons] at h1 h2 h3 ⊢
          refine ⟨by omega, by omega, by omega⟩

/-! ## The probe function `ping` (main.rs lines 71-93) -/

/-- The compile-time platform discrimination in `ping`:
`cfg!(target_family = "unix")`, `cfg!(target_family = "windows")`, or
neither. -/
inductive Platform where
  | unix
  | windows
  | other
deriving Repr, DecidableEq

/-- `ping`: on unix/windows spawn `ping -c 1 <addr>` / `ping -n 1 <addr>`;
`spawn` is the environment's answer for that subprocess — `.error` models the
`?` on `Command::output()` failing, `.ok b` models `output.status.success()`
returning `b`.  On any other platform return `Err("Unsupported platform")`
without spawning anything. -/
def ping (p : Platform) (spawn : Except String Bool) : Except String Unit :=
  match p with
  | .other => .error "Unsupported platform"
  | _ =>
      match spawn with
      | .error e => .error e
      | .ok true => .ok ()
      | .ok false => .error "Ping failed"

/-- One iteration of the `loop` in `ping_endpoint` (main.rs lines 53-67):
call `ping`, measure the elapsed duration, and update the three series
according to the `match output`. -/
def pingEndpointCycle (p : Platform) (spawn : Except String Bool)
    (duration : ℚ) (s : SeriesMetrics) : SeriesMetrics :=
  match ping p spawn with
  | .ok _ => processOutcome s (.success duration)
  | .error _ => processOutcome s .failure

/-- Running the prober loop for finitely many cycles; each cycle the
environment supplies a spawn result and a measured duration. -/
def pingEndpointRun (p : Platform) (cycles : List (Except String Bool × ℚ))
    (s : SeriesMetrics) : SeriesMetrics :=
  cycles.foldl (fun st c => pingEndpointCycle p c.1 c.2 st) s

lemma pingEndpointRun_cons (p : Platform) (c : Except String Bool × ℚ)
    (cs : List (Except String Bool × ℚ)) (s : SeriesMetrics) :
    pingEndpointRun p (c :: cs) s
      = pingEndpointRun p cs (pingEndpointCycle p c.1 c.2 s) := rfl

lemma pingEndpointRun_other (cycles : List (Except String Bool × ℚ))
    (s : SeriesMetrics) :
    pingEndpointRun Platform.other cycles s
      = { s with ping_fail := s.ping_fail + cycles.length } := by
  induction cycles generalizing s with
  | nil =>
      obtain ⟨a, b, c⟩ := s
      simp [pingEndpointRun]
  | cons c cs ih =>
      obtain ⟨a, b, l⟩ := s
      rw [pingEndpointRun_cons]
      have hc : pingEndpointCycle Platform.other c.1 c.2 ⟨a, b, l⟩
          = ⟨a, b + 1, l⟩ := rfl
      rw [hc, ih]
      simp [List.length_cons]
      omega

/-! ## Label-set series creation (`with_label_values`, main.rs lines 48-50) -/

/-- A `(name, address)` label-value tuple. -/
abbrev LabelValues := String × String

/-- Look up the child series for a label tuple in a metric-vec family. -/
def lookupChild {α : Type} (f : List (LabelValues × α)) (l : LabelValues) :
    Option α :=
  match f with
  | [] => none
  | (k, v) :: rest => if k = l then some v else lookupChild rest l

/-- `with_label_values` on a prometheus metric vec: return the family with a
child for the label tuple, creating it with the default value (counter 0,
empty histogram) if it is absent. -/
def withLabelValues {α : Type} (d : α) (f : List (LabelValues × α))
    (l : LabelValues) : List (LabelValues × α) :=
  match lookupChild f l with
  | some _ => f
  | none => f ++ [(l, d)]

/-- The children of the three ping metric-vec families. -/
structure PingFamilies where
  success_children : List (LabelValues × Nat)
  fail_children : List (LabelValues × Nat)
  latency_children : List (LabelValues × List ℚ)
deriving Repr, DecidableEq

/-- Right after `main` registers the families: no child series exist yet. -/
def emptyPingFamilies : PingFamilies := ⟨[], [], []⟩

/-- The three `with_label_values` calls `ping_endpoint` performs at task
startup, before entering its loop (main.rs lines 48-50). -/
def proberStart (e : Endpoint) (fams : PingFamilies) : PingFamilies :=
  { success_children := withLabelValues 0 fams.success_children (e.name, e.address),
    fail_children := withLabelValues 0 fams.fail_children (e.name, e.address),
    latency_children := withLabelValues [] fams.latency_children (e.name, e.address) }

/-! ## Host sampler `update_system_metrics` (main.rs lines 24-40) -/

/-- The three unlabeled gauges. -/
structure SystemGauges where
  system_cpu_cores : ℚ
  system_load_average : ℚ
  system_memory_total : ℚ
deriving Repr, DecidableEq

/-- The three sys_info reads of one sampler cycle: `cpu_num()`,
`loadavg().one` and `mem_info().total`; `none` models an `Err` result. -/
structure HostReads where
  cpu_num : Option Nat
  loadavg_one : Option ℚ
  mem_total : Option Nat
deriving Repr, DecidableEq

/-- One iteration of the `loop` in `update_system_metrics`: the three
independent `if let Ok(..)` updates. -/
def updateSystemMetricsCycle (r : HostReads) (g : SystemGauges) : SystemGauges :=
  let g1 := match r.cpu_num with
    | some n => { g with system_cpu_cores := (n : ℚ) }
    | none => g
  let g2 := match r.loadavg_one with
    | some l => { g1 with system_load_average := l }
    | none => g1
  match r.mem_total with
  | some m => { g2 with system_memory_total := (m : ℚ) }
  | none => g2

/-! ## Metric registration in `main` (main.rs lines 114-123) -/

inductive MetricKind where
  | counter
  | gauge
  | histogram
deriving Repr, DecidableEq

/-- A registered metric family: name, help text, kind, label names. -/
structure MetricFamilyDef where
  name : String
  help : String
  kind : MetricKind
  labelNames : List String
deriving Repr, DecidableEq

/-- The six `prometheus::register_*!` calls in `main`, in program order:
three unlabeled gauges, two `IntCounterVec`s and one `HistogramVec`, the
vecs with label names `&["name", "address"]`. -/
def mainRegistrations : List MetricFamilyDef :=
  [ ⟨"system_cpu_cores", "Number of CPU cores", .gauge, []⟩,
    ⟨"system_load_average", "System load average", .gauge, []⟩,
    ⟨"system_memory_total", "Total system memory", .gauge, []⟩,
    ⟨"ping_success", "Count of successful pings", .counter, ["name", "address"]⟩,
    ⟨"ping_fail", "Count of failed pings", .counter, ["name", "address"]⟩,
    ⟨"ping_latency", "Ping latency in seconds", .histogram, ["name", "address"]⟩ ]

/-- The label-value slice `ping_endpoint` passes to each of its three
`with_label_values` calls: `&[&endpoint.name, &endpoint.address]`. -/
def proberLabelValues (e : Endpoint) : List String := [e.name, e.address]

/-! ## The exposition handler `serve_metrics` (main.rs lines 96-103) -/

/-- The whole default-registry state the program can reach: the three gauge
values plus the children of the three ping families. -/
structure RegistryState where
  gauges : SystemGauges
  ping : PingFamilies
deriving Repr, DecidableEq

/-- The current data of one family in a `prometheus::gather()` snapshot. -/
inductive FamilyData where
  | gaugeData (value : ℚ)
  | counterData (children : List (LabelValues × Nat))
  | histogramData (children : List (LabelValues × List ℚ))
deriving Repr, DecidableEq

/-- `prometheus::gather()`: the snapshot of all six registered families with
their current data. -/
def gather (r : RegistryState) : List (MetricFamilyDef × FamilyData) :=
  [ (⟨"system_cpu_cores", "Number of CPU cores", .gauge, []⟩,
      .gaugeData r.gauges.system_cpu_cores),
    (⟨"system_load_average", "System load average", .gauge, []⟩,
      .gaugeData r.gauges.system_load_average),
    (⟨"system_memory_total", "Total system memory", .gauge, []⟩,
      .gaugeData r.gauges.system_memory_total),
    (⟨"ping_success", "Count of successful pings", .counter, ["name", "address"]⟩,
      .counterData r.ping.success_children),
    (⟨"ping_fail", "Count of failed pings", .counter, ["name", "address"]⟩,
      .counterData r.ping.fail_children),
    (⟨"ping_latency", "Ping latency in seconds", .histogram, ["name", "address"]⟩,
      .histogramData r.ping.latency_children) ]

/-- First character class of a legal prometheus metric name. -/
def isValidNameStart (c : Char) : Bool := c.isAlpha || c = '_' || c = ':'

/-- Later character class of a legal prometheus metric name. -/
def isValidNameChar (c : Char) : Bool := c.isAlphanum || c = '_' || c = ':'

/-- A legal prometheus metric name: `[a-zA-Z_:][a-zA-Z0-9_:]*`. -/
def validMetricName (s : String) : Bool :=
  match s.data with
  | [] => false
  | c :: cs => isValidNameStart c && cs.all isValidNameChar

/-- The `# TYPE` keyword of a kind in the exposition text format. -/
def kindText : MetricKind → String
  | .counter => "counter"
  | .gauge => "gauge"
  | .histogram => "histogram"

/-- Render one label tuple as `\x7bname="...",address="..."\x7d`. -/
def renderLabels (l : LabelValues) : String :=
  "\x7bname=\"" ++ l.1 ++ "\",address=\"" ++ l.2 ++ "\"\x7d"

/-- Render the sample lines of one family's data. -/
def renderData (name : String) (d : FamilyData) : String :=
  match d with
  | .gaugeData v => name ++ " " ++ toString v ++ "\n"
  | .counterData cs =>
      String.join (cs.map fun c =>
        name ++ renderLabels c.1 ++ " " ++ toString c.2 ++ "\n")
  | .histogramData cs =>
      String.join (cs.map fun c =>
        name ++ "_count" ++ renderLabels c.1 ++ " " ++ toString c.2.length ++ "\n"
          ++ name ++ "_sum" ++ renderLabels c.1 ++ " " ++ toString c.2.sum ++ "\n")

/-- Render one family: `# HELP` line, `# TYPE` line, sample lines. -/
def renderFamily (fd : MetricFamilyDef × FamilyData) : String :=
  "# HELP " ++ fd.1.name ++ " " ++ fd.1.help ++ "\n"
    ++ "# TYPE " ++ fd.1.name ++ " " ++ kindText fd.1.kind ++ "\n"
    ++ renderData fd.1.name fd.2

/-- `TextEncoder::encode` into the byte buffer: rendering faults only on a
malformed family (illegal metric name); on a well-formed snapshot it writes
the rendered text (valid UTF-8 by construction, so the subsequent
`String::from_utf8` succeeds on exactly the same condition). -/
def encodeFamilies (fams : List (MetricFamilyDef × FamilyData)) :
    Except String String :=
  if fams.all fun fd => validMetricName fd.1.name then
    .ok (String.join (fams.map renderFamily))
  else
    .error "invalid metric name"

/-- The warp closure behind `GET /metrics`: gather, encode (first `unwrap`),
convert the buffer to a `String` (second `unwrap`), reply with status 200.
An `.error` result models a panic of one of the two `unwrap`s. -/
def serveMetricsHandler (r : RegistryState) : Except String (Nat × String) :=
  match encodeFamilies (gather r) with
  | .ok body => .ok (200, body)
  | .error e => .error e

/-- One full request/response exchange: the handler only reads the registry
(`gather` takes a snapshot; no route mutates any metric), so the registry
state after the request is the state it was called with. -/
def scrapeRequest (r : RegistryState) :
    Except String (Nat × String) × RegistryState :=
  (serveMetricsHandler r, r)

/-! ## Claim theorems -/

lemma countSuccesses_add_countFailures (os : List ProbeOutcome) :
    countSuccesses os + countFailures os = os.length := by
  induction os with
  | nil => rfl
  | cons o os ih =>
      cases o <;>
        simp [countSuccesses, countFailures, List.countP_cons] at ih ⊢ <;>
        omega

/-- C1: for every endpoint and every finite sequence of N probe outcomes with
S successes and F failures (S + F = N), after `ping_endpoint` processes the
sequence its `ping_success` series holds S, its `ping_fail` series holds F,
and its `ping_latency` histogram holds exactly S observations. -/
theorem prober_counts_match_outcome_sequence (os : List ProbeOutcome) :
    (processOutcomes initSeries os).ping_success = countSuccesses os ∧
    (processOutcomes initSeries os).ping_fail = countFailures os ∧
    (processOutcomes initSeries os).latency_observations.length = countSuccesses os ∧
    countSuccesses os + countFailures os = os.length := by
  obtain ⟨h1, h2, h3⟩ := processOutcomes_spec initSeries os
  simp [initSeries] at h1 h2 h3
  exact ⟨h1, h2, h3, countSuccesses_add_countFailures os⟩

/-- C2: a probe cycle that ends in failure never adds an observation to the
latency histogram, and in every state the prober loop can reach from the
fresh series the histogram's observation count is at most the success
counter. -/
theorem failed_probe_never_pollutes_histogram :
    (∀ s : SeriesMetrics,
      (processOutcome s .failure).latency_observations = s.latency_observations) ∧
    (∀ os : List ProbeOutcome,
      (processOutcomes initSeries os).latency_observations.length
        ≤ (processOutcomes initSeries os).ping_success) := by
  refine ⟨fun s => rfl, fun os => ?_⟩
  obtain ⟨h1, -, h3⟩ := processOutcomes_spec initSeries os
  simp [initSeries] at h1 h3 ⊢
  omega

/-- C3 counterexample: the prober creates its three label-set series with its
`with_label_values` calls at task startup, before processing any probe
outcome; for the endpoint `("A", "10.0.0.1")` the series already exist —
with counter value 0 and an empty histogram, i.e. with no observation ever
recorded — refuting "not created before any observation has been made". -/
theorem ping_series_exist_before_first_observation :
    lookupChild (proberStart ⟨"A", "10.0.0.1", none⟩ emptyPingFamilies).success_children
        ("A", "10.0.0.1") = some 0 ∧
    lookupChild (proberStart ⟨"A", "10.0.0.1", none⟩ emptyPingFamilies).fail_children
        ("A", "10.0.0.1") = some 0 ∧
    lookupChild (proberStart ⟨"A", "10.0.0.1", none⟩ emptyPingFamilies).latency_children
        ("A", "10.0.0.1") = some [] := by
  refine ⟨?_, ?_, ?_⟩ <;> decide

/-- C3 amended: label-set series are created lazily on the first
`with_label_values` call for the label set, initialized to 0 — a call the
prober performs at its task startup, before the first probe outcome —
while registering the families alone creates no series. -/
theorem ping_series_created_at_prober_start :
    (∀ l : LabelValues,
      lookupChild emptyPingFamilies.success_children l = none ∧
      lookupChild emptyPingFamilies.fail_children l = none ∧
      lookupChild emptyPingFamilies.latency_children l = none) ∧
    (∀ e : Endpoint,
      lookupChild (proberStart e emptyPingFamilies).success_children
        (e.name, e.address) = some 0 ∧
      lookupChild (proberStart e emptyPingFamilies).fail_children
        (e.name, e.address) = some 0 ∧
      lookupChild (proberStart e emptyPingFamilies).latency_children
        (e.name, e.address) = some []) := by
  refine ⟨fun l => ⟨rfl, rfl, rfl⟩, fun e => ?_⟩
  refine ⟨?_, ?_, ?_⟩ <;>
    simp [proberStart, withLabelValues, lookupChild, emptyPingFamilies]

/-- C4: on a platform that is neither unix nor windows, `ping` returns
`Err("Unsupported platform")` on every call, and `ping_endpoint` treats each
such error as an ordinary per-cycle failure — incrementing `ping_fail` and
looping forever — instead of failing fast before entering the loop as the
specification requires. -/
theorem unsupported_platform_counted_as_cycle_failure :
    (∀ spawn : Except String Bool,
      ping Platform.other spawn = Except.error "Unsupported platform") ∧
    (∀ (spawn : Except String Bool) (dur : ℚ) (s : SeriesMetrics),
      pingEndpointCycle Platform.other spawn dur s
        = { s with ping_fail := s.ping_fail + 1 }) ∧
    (∀ cycles : List (Except String Bool × ℚ),
      (pingEndpointRun Platform.other cycles initSeries).ping_fail = cycles.length ∧
      (pingEndpointRun Platform.other cycles initSeries).ping_success = 0) := by
  refine ⟨fun spawn => rfl, fun spawn dur s => rfl, fun cycles => ?_⟩
  rw [pingEndpointRun_other]
  simp [initSeries]

/-- C5: in every host-sampler cycle each gauge is set exactly when its
host-stat read succeeds; in particular, whenever one of the three reads
fails while the other two succeed, the two succeeding gauges are still
updated that cycle and the failing one keeps its previous value (the cycle
function is total: the task does not crash). -/
theorem host_gauges_updated_only_on_successful_read :
    (∀ (r : HostReads) (g : SystemGauges),
      (updateSystemMetricsCycle r g).system_cpu_cores
          = (match r.cpu_num with | some n => (n : ℚ) | none => g.system_cpu_cores) ∧
      (updateSystemMetricsCycle r g).system_load_average
          = (match r.loadavg_one with | some l => l | none => g.system_load_average) ∧
      (updateSystemMetricsCycle r g).system_memory_total
          = (match r.mem_total with | some m => (m : ℚ) | none => g.system_memory_total)) ∧
    (∀ (g : SystemGauges) (l : ℚ) (m : Nat),
      updateSystemMetricsCycle ⟨none, some l, some m⟩ g
        = ⟨g.system_cpu_cores, l, (m : ℚ)⟩) ∧
    (∀ (g : SystemGauges) (n : Nat) (m : Nat),
      updateSystemMetricsCycle ⟨some n, none, some m⟩ g
        = ⟨(n : ℚ), g.system_load_average, (m : ℚ)⟩) ∧
    (∀ (g : SystemGauges) (n : Nat) (l : ℚ),
      updateSystemMetricsCycle ⟨some n, some l, none⟩ g
        = ⟨(n : ℚ), l, g.system_memory_total⟩) := by
  refine ⟨fun r g => ?_, fun g l m => rfl, fun g n m => rfl, fun g n l => rfl⟩
  obtain ⟨c, lo, me⟩ := r
  cases c <;> cases lo <;> cases me <;> exact ⟨rfl, rfl, rfl⟩

/-- C7: for every registry state the program can reach, the exposition
handler's encode step and UTF-8 conversion succeed (their error branches —
the two `unwrap`s — are never taken) and the response is status 200 with the
rendered body. -/
theorem metrics_scrape_always_renders_with_status_200 (r : RegistryState) :
    ∃ body : String, serveMetricsHandler r = Except.ok (200, body) := by
  have hv : ((gather r).all fun fd => validMetricName fd.1.name) = true := by
    simp only [gather, List.all_cons, List.all_nil]
    decide
  refine ⟨String.join ((gather r).map renderFamily), ?_⟩
  simp only [serveMetricsHandler, encodeFamilies]
  rw [if_pos hv]

/-- C8: serving a scrape never mutates the registry, and two back-to-back
scrapes with no intervening probe or sampler activity return identical
responses. -/
theorem scrape_idempotent_and_registry_preserved (r : RegistryState) :
    (scrapeRequest r).2 = r ∧
    (scrapeRequest ((scrapeRequest r).2)).1 = (scrapeRequest r).1 :=
  ⟨rfl, rfl⟩

/-- C9: `main` registers exactly the six families — the three system gauges
unlabeled, `ping_success` and `ping_fail` as counters and `ping_latency` as
a histogram, each with label names `(name, address)` in that order — and
every labeled write of the prober uses exactly the two-element label tuple
`(endpoint.name, endpoint.address)` in that order. -/
theorem metric_names_kinds_and_label_contract :
    (mainRegistrations.map fun f => (f.name, f.kind, f.labelNames)) =
      [("system_cpu_cores", MetricKind.gauge, []),
       ("system_load_average", MetricKind.gauge, []),
       ("system_memory_total", MetricKind.gauge, []),
       ("ping_success", MetricKind.counter, ["name", "address"]),
       ("ping_fail", MetricKind.counter, ["name", "address"]),
       ("ping_latency", MetricKind.histogram, ["name", "address"])] ∧
    (∀ e : Endpoint, proberLabelValues e = [e.name, e.address] ∧
      (proberLabelValues e).length = 2) :=
  ⟨rfl, fun e => ⟨rfl, rfl⟩⟩

/-- C10: `ping` returns `Ok` exactly when the platform is unix or windows and
the spawned single-request ping subprocess exits successfully; on any other
platform every probe cycle increments the failure counter and the success
counter stays 0 forever (with an empty histogram). -/
theorem ping_ok_iff_supported_platform_and_exit_success :
    (∀ (p : Platform) (spawn : Except String Bool),
      ping p spawn = Except.ok () ↔
        ((p = Platform.unix ∨ p = Platform.windows) ∧ spawn = Except.ok true)) ∧
    (∀ cycles : List (Except String Bool × ℚ),
      pingEndpointRun Platform.other cycles initSeries
        = ⟨0, cycles.length, []⟩) := by
  constructor
  · intro p spawn
    cases p <;> rcases spawn with e | b <;> try cases b
    all_goals simp [ping]
  · intro cycles
    rw [pingEndpointRun_other]
    simp [initSeries]

end RustNetStab
